import Mathlib

/-!
Verification of the session/authorization layer and scan-lifecycle
derivations of the vulnerability-scanning web client.

The embedding follows the TypeScript sources:
* `services/api.ts` — the axios instance with its request interceptor
  (bearer token and locale headers) and response interceptor (401 handling);
* `types.ts` — `UserRole`, `ScanStatus`, `VulnerabilitySeverity` numeric
  enums and the `SeverityColors` record;
* `pages/ScansPage.tsx` — `getStatusColor`, the vulnerabilities grid cell,
  and `canCreateScan`;
* `pages/DashboardPage.tsx` — `totalVulnerabilities`;
* components that are referenced but whose sources are absent
  (`AuthContext`, `ProtectedRoute`) are modelled from the specification,
  as marked in their doc comments.
-/

namespace SecScan

/-! ## Enumerations from `types.ts` -/

/-- `UserRole` is a closed three-valued enum (`DEV: 1, ANALYST: 2, ADMIN: 3`). -/
inductive UserRole where
  | DEV
  | ANALYST
  | ADMIN
deriving DecidableEq, Repr

/-- Numeric encoding of `UserRole` used on the wire. -/
def UserRole.toNat : UserRole → Nat
  | .DEV => 1
  | .ANALYST => 2
  | .ADMIN => 3

/-- Runtime numeric values of the `ScanStatus` enum (`PENDING: 1, RUNNING: 2,
COMPLETED: 3, FAILED: 4`). Scan statuses arrive from the backend as plain
numbers and `getStatusColor` has a default branch for out-of-enum values, so
the status domain is modelled as `Nat`. -/
def ScanStatus.PENDING : Nat := 1

/-- Runtime numeric value of `ScanStatus.RUNNING`. -/
def ScanStatus.RUNNING : Nat := 2

/-- Runtime numeric value of `ScanStatus.COMPLETED`. -/
def ScanStatus.COMPLETED : Nat := 3

/-- Runtime numeric value of `ScanStatus.FAILED`. -/
def ScanStatus.FAILED : Nat := 4

/-- `VulnerabilitySeverity` is a closed four-valued enum
(`LOW: 1, MEDIUM: 2, HIGH: 3, CRITICAL: 4`). -/
inductive VulnerabilitySeverity where
  | LOW
  | MEDIUM
  | HIGH
  | CRITICAL
deriving DecidableEq, Repr

/-- MUI chip color values used by the pages (`success`, `warning`, `error`,
`info`, `default`). -/
inductive MuiColor where
  | success
  | warning
  | error
  | info
  | default
deriving DecidableEq, Repr

/-- The `SeverityColors` record of `types.ts`:
CRITICAL and HIGH map to `error`, MEDIUM to `warning`, LOW to `info`. -/
def SeverityColors : VulnerabilitySeverity → MuiColor
  | .CRITICAL => .error
  | .HIGH => .error
  | .MEDIUM => .warning
  | .LOW => .info

/-! ## Data shapes from `types.ts` -/

/-- The `User` interface. -/
structure User where
  id : Nat
  username : String
  role : UserRole
  created_at : String
  updated_at : String
deriving DecidableEq, Repr

/-- The `Vulnerability` interface (optional fields are `Option`s). -/
structure Vulnerability where
  id : Nat
  scan_id : Nat
  name : String
  severity : VulnerabilitySeverity
  url_path : String
  description : Option String
  cwe_id : Option String
deriving DecidableEq, Repr

/-- The `Scan` interface: `vulnerabilities` and `vulnerabilities_amount`
are both optional. -/
structure Scan where
  id : Nat
  target_url : String
  status : Nat
  created_at : String
  completed_at : Option String
  user_id : Nat
  vulnerabilities : Option (List Vulnerability)
  vulnerabilities_amount : Option Nat
deriving DecidableEq, Repr

/-! ## Credential Store and API Gateway Client (`services/api.ts`) -/

/-- The two persisted localStorage keys read and written by the client:
`token` (bearer token) and `user` (serialized cached profile). `none`
models an absent key (`localStorage.getItem` returning `null`). -/
structure CredentialStore where
  token : Option String
  user : Option String
deriving DecidableEq, Repr

/-- An axios error as observed by the response interceptor: `status` is
`error.response?.status` (`none` when there is no response object), and
`path` is the request URL from the error's config. The interceptor never
reads `path`; it is carried to show that no endpoint is exempted. -/
structure ApiError where
  status : Option Nat
  path : String
deriving DecidableEq, Repr

/-- Outcome of the response-error interceptor: the credential store after
its side effects, the forced navigation target if any (the assignment to
`window.location.href`), and the error handed back to the caller via
`Promise.reject`. -/
structure InterceptResult where
  store : CredentialStore
  navigation : Option String
  rejected : ApiError
deriving DecidableEq, Repr

/-- The response interceptor of `services/api.ts`: on a 401 it removes the
`token` and `user` keys and navigates to `/login`; in every case it
rejects with the original error. -/
def interceptResponseError (st : CredentialStore) (e : ApiError) : InterceptResult :=
  if e.status = some 401 then
    { store := { token := none, user := none }, navigation := some "/login", rejected := e }
  else
    { store := st, navigation := none, rejected := e }

/-- The request interceptor's Authorization header: set to
`Bearer <token>` when `localStorage.getItem` returns a truthy value
(a non-null, non-empty string), left unset otherwise. -/
def requestAuthHeader (token : Option String) : Option String :=
  match token with
  | some t => if t = "" then none else some (String.append "Bearer " t)
  | none => none

/-- The request interceptor's Accept-Language header:
`localStorage.getItem of i18nextLng or else the string ru` (JS `||` treats
the empty string as falsy), then `en` when that value equals `en`, `ru`
otherwise. -/
def acceptLanguageHeader (stored : Option String) : String :=
  let currentLang : String :=
    match stored with
    | some s => if s = "" then "ru" else s
    | none => "ru"
  if currentLang = "en" then "en" else "ru"

/-! ## Scan-lifecycle derivations in the pages -/

/-- `getStatusColor` of `ScansPage.tsx` / `ScanDetailsPage.tsx`: a switch
on the status with COMPLETED to success, RUNNING to warning, FAILED to
error, and a default branch returning the neutral color. -/
def getStatusColor (status : Nat) : MuiColor :=
  if status = ScanStatus.COMPLETED then .success
  else if status = ScanStatus.RUNNING then .warning
  else if status = ScanStatus.FAILED then .error
  else .default

/-- The vulnerabilities grid cell of `ScansPage.tsx`:
`(params) => params.value.length`. `none` models the JavaScript TypeError
thrown when `params.value` is `undefined` (the `vulnerabilities` array is
absent): the derivation produces no count in that case. -/
def vulnerabilitiesRenderCell (s : Scan) : Option Nat :=
  s.vulnerabilities.map List.length

/-- `canCreateScan` of `ScansPage.tsx`:
`user and (user.role === ANALYST or user.role === ADMIN)`. The new-scan
button is rendered exactly when this is truthy. -/
def canCreateScan (user : Option User) : Bool :=
  match user with
  | some u => u.role == UserRole.ANALYST || u.role == UserRole.ADMIN
  | none => false

/-- `totalVulnerabilities` of `DashboardPage.tsx`: a reduce over the scans
adding `s.vulnerabilities_amount` when it is truthy (present and nonzero)
and skipping it otherwise; the `vulnerabilities` array is never consulted. -/
def totalVulnerabilities (scans : List Scan) : Nat :=
  scans.foldl
    (fun sum s =>
      match s.vulnerabilities_amount with
      | some n => if n = 0 then sum else sum + n
      | none => sum)
    0

/-- Follows the spec's words, for comparison with the source derivations:
`vulnerabilityCount(scan)` prefers `vulnerabilities.length` when the array
is present, otherwise falls back to `vulnerabilities_amount`, otherwise 0,
and never fails. No function in the source implements this chain. -/
def vulnerabilityCountSpec (s : Scan) : Nat :=
  match s.vulnerabilities with
  | some l => l.length
  | none => s.vulnerabilities_amount.getD 0

/-! ## Route Guard (`components/ProtectedRoute`, modelled from the spec) -/

/-- The four possible renderings of the Route Guard. -/
inductive GuardDecision where
  | loadingPlaceholder
  | redirectLogin
  | redirectHome
  | renderContent
deriving DecidableEq, Repr

/-- Modelled from the spec: the `ProtectedRoute` component (Route Guard)
is imported by `App` but its source file is not present. Per the spec,
given a required-role allow-list (empty meaning any authenticated user)
and the current session, it decides: a neutral loading placeholder while
loading, a redirect to the login entry point when no user is present, a
redirect to a safe default view when the user's role is not in the
allow-list (an exact-membership check, no role hierarchy), and otherwise
renders the protected content. -/
def ProtectedRoute (isLoading : Bool) (user : Option User)
    (allowedRoles : List UserRole) : GuardDecision :=
  if isLoading then .loadingPlaceholder
  else
    match user with
    | none => .redirectLogin
    | some u =>
      if allowedRoles = [] then .renderContent
      else if u.role ∈ allowedRoles then .renderContent
      else .redirectHome

/-! ## Session Context (`context/AuthContext`, modelled from the spec) -/

/-- The Session Context's in-memory state: the stored bearer token and the
cached current user. -/
structure SessionState where
  token : Option String
  user : Option User
deriving DecidableEq, Repr

/-- Observable steps taken by `login`, in order. -/
inductive SessionEvent where
  | storeToken (t : String)
  | fetchProfile (t : String)
  | cacheUser (u : User)
deriving DecidableEq, Repr

/-- Outcome of a `login` call: the resulting session state, the ordered
list of store/fetch events, and the rejection handed to the caller if the
attempt failed. -/
structure LoginOutcome where
  state : SessionState
  events : List SessionEvent
  rejected : Option ApiError
deriving DecidableEq, Repr

/-- Modelled from the spec: `AuthContext`'s `login` (Session Context) is
imported by `LoginPage` but its source file is not present. Per the spec,
`login` calls the authentication endpoint; on success it stores the
returned token via the Credential Store, then fetches the current-user
profile and caches it; on failure the store is left untouched and the
error propagates to the caller. `authEndpoint` and `fetchMe` abstract the
two backend calls. -/
def login (authEndpoint : String → String → Except ApiError String)
    (fetchMe : String → Except ApiError User)
    (st : SessionState) (username password : String) : LoginOutcome :=
  match authEndpoint username password with
  | .error e => { state := st, events := [], rejected := some e }
  | .ok tok =>
    match fetchMe tok with
    | .error e =>
      { state := { token := some tok, user := st.user },
        events := [.storeToken tok, .fetchProfile tok],
        rejected := some e }
    | .ok u =>
      { state := { token := some tok, user := some u },
        events := [.storeToken tok, .fetchProfile tok, .cacheUser u],
        rejected := none }

/-! ## Concrete fixtures used by witnesses -/

/-- A DEV-role user. -/
def devUser : User :=
  { id := 1, username := "dev", role := .DEV, created_at := "", updated_at := "" }

/-- An ANALYST-role user. -/
def analystUser : User :=
  { id := 2, username := "analyst", role := .ANALYST, created_at := "", updated_at := "" }

/-- An ADMIN-role user. -/
def adminUser : User :=
  { id := 3, username := "admin", role := .ADMIN, created_at := "", updated_at := "" }

/-! ## Claim theorems -/

/-- C1: for every response with status 401 the interceptor clears the
stored token and the cached user, forces navigation to `/login`, and
rejects with the original error; for every other error status it leaves
the store untouched, performs no navigation, and passes the error through
unmodified. -/
theorem c1_response_interceptor (st : CredentialStore) (e : ApiError) :
    (e.status = some 401 →
      interceptResponseError st e =
        { store := { token := none, user := none },
          navigation := some "/login", rejected := e }) ∧
    (e.status ≠ some 401 →
      interceptResponseError st e =
        { store := st, navigation := none, rejected := e }) := by
  constructor <;> intro h <;> simp [interceptResponseError, h]

/-- Witness for C1 at concrete inputs: a 401 on `/scans/` clears a
populated store and navigates, a 500 passes through unchanged. -/
theorem c1_response_interceptor_witness :
    interceptResponseError { token := some "tk", user := some "u" }
        { status := some 401, path := "/scans/" } =
      { store := { token := none, user := none },
        navigation := some "/login",
        rejected := { status := some 401, path := "/scans/" } } ∧
    interceptResponseError { token := some "tk", user := some "u" }
        { status := some 500, path := "/scans/" } =
      { store := { token := some "tk", user := some "u" },
        navigation := none,
        rejected := { status := some 500, path := "/scans/" } } :=
  ⟨(c1_response_interceptor { token := some "tk", user := some "u" }
      { status := some 401, path := "/scans/" }).1 rfl,
   (c1_response_interceptor { token := some "tk", user := some "u" }
      { status := some 500, path := "/scans/" }).2 (by decide)⟩

/-- C4: an outgoing request carries `Authorization: Bearer <token>` when
the store holds a (non-empty) token, the header is omitted entirely when
the store holds none, and no empty or malformed bearer value is ever
produced. -/
theorem c4_authorization_header (t : String) (tok : Option String) (h : String) :
    (t ≠ "" → requestAuthHeader (some t) = some (String.append "Bearer " t)) ∧
    requestAuthHeader none = none ∧
    (requestAuthHeader tok = some h → ∃ s, s ≠ "" ∧ h = String.append "Bearer " s) := by
  refine ⟨?_, rfl, ?_⟩
  · intro ht
    simp [requestAuthHeader, ht]
  · intro hh
    cases tok with
    | none => simp [requestAuthHeader] at hh
    | some s =>
      by_cases hs : s = ""
      · simp [requestAuthHeader, hs] at hh
      · simp [requestAuthHeader, hs] at hh
        exact ⟨s, hs, hh.symm⟩

/-- Witness for C4 at concrete inputs: a stored token is attached with the
`Bearer ` prefix, an absent token yields no header. -/
theorem c4_authorization_header_witness :
    requestAuthHeader (some "abc") = some (String.append "Bearer " "abc") ∧
    requestAuthHeader none = none :=
  ⟨(c4_authorization_header "abc" none "").1 (by decide),
   (c4_authorization_header "" none "").2.1⟩

/-- C6: the status-to-color mapping is total, with COMPLETED to success,
RUNNING to warning, FAILED to error, PENDING to the neutral color, and
any value outside the four-member status set to the neutral color. -/
theorem c6_status_color_total (n : Nat) :
    getStatusColor ScanStatus.COMPLETED = .success ∧
    getStatusColor ScanStatus.RUNNING = .warning ∧
    getStatusColor ScanStatus.FAILED = .error ∧
    getStatusColor ScanStatus.PENDING = .default ∧
    (n ≠ ScanStatus.PENDING → n ≠ ScanStatus.RUNNING → n ≠ ScanStatus.COMPLETED →
      n ≠ ScanStatus.FAILED → getStatusColor n = .default) := by
  refine ⟨rfl, rfl, rfl, rfl, ?_⟩
  intro _ h2 h3 h4
  simp only [ScanStatus.RUNNING] at h2
  simp only [ScanStatus.COMPLETED] at h3
  simp only [ScanStatus.FAILED] at h4
  simp [getStatusColor, ScanStatus.RUNNING, ScanStatus.COMPLETED, ScanStatus.FAILED,
    h2, h3, h4]

/-- Witness for C6 at a concrete out-of-enum input. -/
theorem c6_status_color_total_witness : getStatusColor 7 = .default :=
  (c6_status_color_total 7).2.2.2.2 (by decide) (by decide) (by decide) (by decide)

/-- C8: the severity-to-presentation mapping is total over the four
severity values, CRITICAL and HIGH both map to the most urgent treatment
(`error`), MEDIUM to the cautionary `warning`, LOW to the informational
`info`. -/
theorem c8_severity_colors_total (s : VulnerabilitySeverity) :
    SeverityColors .CRITICAL = .error ∧
    SeverityColors .HIGH = .error ∧
    SeverityColors .MEDIUM = .warning ∧
    SeverityColors .LOW = .info ∧
    (SeverityColors s = .error ∨ SeverityColors s = .warning ∨
      SeverityColors s = .info) := by
  refine ⟨rfl, rfl, rfl, rfl, ?_⟩
  cases s <;> simp [SeverityColors]

/-- C9: the Accept-Language header is always exactly `en` or `ru`; an
unset language yields the fallback `ru`, the stored value `en` yields
`en`, and any other stored value yields `ru`. -/
theorem c9_accept_language (stored : Option String) (l : String) :
    (acceptLanguageHeader stored = "en" ∨ acceptLanguageHeader stored = "ru") ∧
    (stored = none → acceptLanguageHeader stored = "ru") ∧
    acceptLanguageHeader (some "en") = "en" ∧
    (stored = some l → l ≠ "en" → acceptLanguageHeader stored = "ru") := by
  refine ⟨?_, ?_, by decide, ?_⟩
  · cases stored with
    | none => exact Or.inr rfl
    | some s =>
      by_cases hs : s = ""
      · exact Or.inr (by simp [acceptLanguageHeader, hs])
      · by_cases he : s = "en"
        · exact Or.inl (by simp [acceptLanguageHeader, hs, he])
        · exact Or.inr (by simp [acceptLanguageHeader, hs, he])
  · intro h
    subst h
    rfl
  · intro h hl
    subst h
    by_cases hs : l = ""
    · simp [acceptLanguageHeader, hs]
    · simp [acceptLanguageHeader, hs, hl]

/-- Witness for C9 at concrete inputs: no stored language gives `ru`, a
stored `de` gives `ru`. -/
theorem c9_accept_language_witness :
    acceptLanguageHeader none = "ru" ∧ acceptLanguageHeader (some "de") = "ru" :=
  ⟨(c9_accept_language none "x").2.1 rfl,
   (c9_accept_language (some "de") "de").2.2.2 rfl (by decide)⟩

/-- C10: the new-scan action is offered exactly when a user is present
with role ANALYST or ADMIN; an absent user or a DEV user is never offered
the action. -/
theorem c10_can_create_scan (user : Option User) :
    (canCreateScan user = true ↔
      ∃ u, user = some u ∧ (u.role = UserRole.ANALYST ∨ u.role = UserRole.ADMIN)) ∧
    canCreateScan none = false ∧
    (∀ u, user = some u → u.role = UserRole.DEV → canCreateScan user = false) := by
  refine ⟨?_, rfl, ?_⟩
  · cases user with
    | none => simp [canCreateScan]
    | some u =>
      cases h : u.role with
      | DEV => simp [canCreateScan, h]
      | ANALYST => simp [canCreateScan, h]
      | ADMIN => simp [canCreateScan, h]
  · intro u hu hr
    subst hu
    simp [canCreateScan, hr]

/-- Witness for C10 at concrete users: a DEV user is refused, an ANALYST
user is offered the action. -/
theorem c10_can_create_scan_witness :
    canCreateScan (some devUser) = false ∧ canCreateScan (some analystUser) = true :=
  ⟨(c10_can_create_scan (some devUser)).2.2 devUser rfl rfl,
   (c10_can_create_scan (some analystUser)).1.mpr ⟨analystUser, rfl, Or.inl rfl⟩⟩

/-- C2: with loading finished, the Route Guard renders the protected
content iff a user is present and its role is in the allow-list (or the
allow-list is empty); an absent user is redirected to the login entry
point, a listed-out role is redirected to the safe default view; the check
is exact membership, so an ADMIN user is not granted access to a route
whose allow-list does not contain ADMIN. The guard is a total function,
so it never throws. -/
theorem c2_route_guard (user : Option User) (L : List UserRole) :
    (ProtectedRoute false user L = .renderContent ↔
      ∃ u, user = some u ∧ (L = [] ∨ u.role ∈ L)) ∧
    (user = none → ProtectedRoute false user L = .redirectLogin) ∧
    (∀ u, user = some u → L ≠ [] → u.role ∉ L →
      ProtectedRoute false user L = .redirectHome) ∧
    (∀ u, user = some u → u.role = UserRole.ADMIN → L ≠ [] → UserRole.ADMIN ∉ L →
      ProtectedRoute false user L ≠ .renderContent) := by
  refine ⟨?_, ?_, ?_, ?_⟩
  · cases user with
    | none => simp [ProtectedRoute]
    | some u =>
      by_cases hL : L = []
      · simp [ProtectedRoute, hL]
      · by_cases hm : u.role ∈ L
        · simp [ProtectedRoute, hL, hm]
        · simp [ProtectedRoute, hL, hm]
  · intro h
    subst h
    rfl
  · intro u hu hL hm
    subst hu
    simp [ProtectedRoute, hL, hm]
  · intro u hu hr hL hA
    subst hu
    have hm : u.role ∉ L := by
      rw [hr]
      exact hA
    simp [ProtectedRoute, hL, hm]

/-- Witness for C2 at concrete inputs: an ADMIN user is turned away from
an ANALYST-only route, an absent user is sent to login, and any
authenticated user passes an empty allow-list. -/
theorem c2_route_guard_witness :
    ProtectedRoute false (some adminUser) [UserRole.ANALYST] = .redirectHome ∧
    ProtectedRoute false none [UserRole.ADMIN] = .redirectLogin ∧
    ProtectedRoute false (some devUser) [] = .renderContent :=
  ⟨(c2_route_guard (some adminUser) [UserRole.ANALYST]).2.2.1 adminUser rfl
      (by decide) (by decide),
   (c2_route_guard none [UserRole.ADMIN]).2.1 rfl,
   (c2_route_guard (some devUser) []).1.mpr ⟨devUser, rfl, Or.inl rfl⟩⟩

/-- The dashboard reduce equals the sum of the `vulnerabilities_amount`
fields (absent counted as 0), for any accumulator. -/
theorem totalVulnerabilities_eq_sum_amounts (scans : List Scan) (acc : Nat) :
    scans.foldl
      (fun sum s =>
        match s.vulnerabilities_amount with
        | some n => if n = 0 then sum else sum + n
        | none => sum)
      acc =
    acc + (scans.map (fun t => t.vulnerabilities_amount.getD 0)).sum := by
  induction scans generalizing acc with
  | nil => simp
  | cons s rest ih =>
    simp only [List.foldl_cons, List.map_cons, List.sum_cons, ih]
    cases h : s.vulnerabilities_amount with
    | none =>
      simp [h, Option.getD]
    | some n =>
      by_cases hn : n = 0
      · subst hn
        simp [h, Option.getD]
      · simp [h, Option.getD, hn]
        omega

/-- A scan whose `vulnerabilities` array is absent while
`vulnerabilities_amount` is 5 — the shape the spec says list views
typically receive. -/
def summaryOnlyScan : Scan :=
  { id := 1, target_url := "https://example.com", status := ScanStatus.COMPLETED,
    created_at := "2024-01-01", completed_at := none, user_id := 1,
    vulnerabilities := none, vulnerabilities_amount := some 5 }

/-- C3 counterexample: at `summaryOnlyScan` the claimed derivation would
return the fallback 5, but the scans-list cell derivation produces no
count at all (the source throws on reading `length` of `undefined`), so
the claimed fallback to `vulnerabilities_amount` does not exist and the
derivation does fail on a scan with the array absent. -/
theorem c3_counterexample :
    vulnerabilitiesRenderCell summaryOnlyScan = none ∧
    vulnerabilityCountSpec summaryOnlyScan = 5 :=
  ⟨rfl, rfl⟩

/-- C3 amended: the scans-list cell returns `vulnerabilities.length` when
the array is present (regardless of `vulnerabilities_amount`) and fails
with no count when the array is absent, never consulting
`vulnerabilities_amount`; the dashboard total is derived from
`vulnerabilities_amount` alone (absent counted as 0), never consulting
the array. -/
theorem c3_count_derivations (s : Scan) (l : List Vulnerability) (scans : List Scan) :
    (s.vulnerabilities = some l → vulnerabilitiesRenderCell s = some l.length) ∧
    (s.vulnerabilities = none → vulnerabilitiesRenderCell s = none) ∧
    totalVulnerabilities scans =
      (scans.map (fun t => t.vulnerabilities_amount.getD 0)).sum := by
  refine ⟨?_, ?_, ?_⟩
  · intro h
    simp [vulnerabilitiesRenderCell, h]
  · intro h
    simp [vulnerabilitiesRenderCell, h]
  · simpa [totalVulnerabilities] using totalVulnerabilities_eq_sum_amounts scans 0

/-- An example vulnerability for the detail-view scan. -/
def xssVuln : Vulnerability :=
  { id := 10, scan_id := 2, name := "Reflected XSS", severity := .HIGH,
    url_path := "/search", description := none, cwe_id := some "CWE-79" }

/-- A scan carrying a one-element `vulnerabilities` array and a stale
`vulnerabilities_amount` of 99. -/
def detailScan : Scan :=
  { id := 2, target_url := "https://example.org", status := ScanStatus.COMPLETED,
    created_at := "2024-01-02", completed_at := some "2024-01-03", user_id := 1,
    vulnerabilities := some [xssVuln], vulnerabilities_amount := some 99 }

/-- Witness for C3's amended statement at concrete scans. -/
theorem c3_count_derivations_witness :
    vulnerabilitiesRenderCell detailScan = some 1 ∧
    vulnerabilitiesRenderCell summaryOnlyScan = none ∧
    totalVulnerabilities [detailScan, summaryOnlyScan] = 104 := by
  refine ⟨(c3_count_derivations detailScan [xssVuln] []).1 rfl,
    (c3_count_derivations summaryOnlyScan [] []).2.1 rfl, ?_⟩
  have h := (c3_count_derivations detailScan [] [detailScan, summaryOnlyScan]).2.2
  simpa using h

/-- A 401 rejection produced by the login endpoint itself. -/
def loginAttempt401 : ApiError := { status := some 401, path := "/auth/login" }

/-- C5: evaluating the response interceptor at a 401 whose request path is
the login endpoint. The interceptor of `services/api.ts` never inspects
the request path, so the clear-store-and-redirect side effect reserved
for authenticated calls fires for a failed login attempt too (the
navigation to `/login` is forced and any stored keys are cleared),
contradicting the claim that a login 401 is a plain login failure with
the session untouched. -/
theorem c5_login_401_forced_logout :
    interceptResponseError { token := some "stale", user := some "cached" }
        loginAttempt401 =
      { store := { token := none, user := none },
        navigation := some "/login", rejected := loginAttempt401 } ∧
    interceptResponseError { token := none, user := none } loginAttempt401 =
      { store := { token := none, user := none },
        navigation := some "/login", rejected := loginAttempt401 } :=
  ⟨rfl, rfl⟩

/-- C7: on a failed authentication call `login` leaves the session state
untouched (in particular the user stays absent and the token unchanged)
and rejects with the authentication error; on success it stores the
returned token first, then fetches the current-user profile and caches
it, as witnessed by the ordered event list. -/
theorem c7_login_contract (authEndpoint : String → String → Except ApiError String)
    (fetchMe : String → Except ApiError User) (st : SessionState)
    (un pw : String) (e : ApiError) (tok : String) (u : User) :
    (authEndpoint un pw = .error e →
      login authEndpoint fetchMe st un pw =
        { state := st, events := [], rejected := some e }) ∧
    (authEndpoint un pw = .error e → st.user = none →
      (login authEndpoint fetchMe st un pw).state.user = none ∧
      (login authEndpoint fetchMe st un pw).state.token = st.token) ∧
    (authEndpoint un pw = .ok tok → fetchMe tok = .ok u →
      login authEndpoint fetchMe st un pw =
        { state := { token := some tok, user := some u },
          events := [.storeToken tok, .fetchProfile tok, .cacheUser u],
          rejected := none }) := by
  refine ⟨?_, ?_, ?_⟩
  · intro h
    simp [login, h]
  · intro h hu
    simp [login, h, hu]
  · intro h1 h2
    simp [login, h1, h2]

/-- A backend rejecting every credential pair at the login endpoint. -/
def rejectAllAuth : String → String → Except ApiError String :=
  fun _ _ => .error loginAttempt401

/-- A backend accepting only the username `admin`. -/
def acceptAdminAuth : String → String → Except ApiError String :=
  fun username _ => if username = "admin" then .ok "tok123" else .error loginAttempt401

/-- A profile endpoint returning the admin user. -/
def fetchAdminMe : String → Except ApiError User :=
  fun _ => .ok adminUser

/-- Witness for C7 at concrete backends: a rejected login leaves the empty
session empty and surfaces the error; an accepted login stores the token
and caches the fetched profile in order. -/
theorem c7_login_contract_witness :
    login rejectAllAuth fetchAdminMe { token := none, user := none } "admin" "wrong" =
      { state := { token := none, user := none },
        events := [], rejected := some loginAttempt401 } ∧
    login acceptAdminAuth fetchAdminMe { token := none, user := none } "admin" "correct" =
      { state := { token := some "tok123", user := some adminUser },
        events := [.storeToken "tok123", .fetchProfile "tok123", .cacheUser adminUser],
        rejected := none } :=
  ⟨(c7_login_contract rejectAllAuth fetchAdminMe { token := none, user := none }
      "admin" "wrong" loginAttempt401 "tok123" adminUser).1 rfl,
   (c7_login_contract acceptAdminAuth fetchAdminMe { token := none, user := none }
      "admin" "correct" loginAttempt401 "tok123" adminUser).2.2 rfl rfl⟩

end SecScan
